import Mathlib

/-!
Shallow embedding of lightflow/models/task.py: the BaseTask descriptor with
its celery-result status queries, and the internal execution wrapper
BaseTask._run that mediates between user task logic and the scheduler.

The modules lightflow/models/action.py, lightflow/models/task_data.py,
lightflow/models/exceptions.py and lightflow/queue are not among the provided
sources; the value types they define (Action, MultiTaskData, the error and
signal classes, JobType) are modelled from the spec, as marked on each.
Python in-place mutation is represented by explicit value passing, and the
observable side effects of one wrapper invocation (callback firings, the
stop-workflow request, history appends) are collected in a trace record.
-/

set_option autoImplicit false

namespace Lightflow

/-- Modelled from the spec: the enumerated queue-class tag. JobType lives in
lightflow.queue, which is not among the provided sources; section 3 of the
spec describes it as an enumerated tag selecting the job queue category. -/
inductive JobType where
  | Task
  | Dag
  | Workflow
deriving DecidableEq

/-- Integer constants flagging the current state of the task, mirroring the
TaskState class of task.py. -/
def TaskState.Init : Nat := 1

/-- TaskState.Waiting constant from task.py. -/
def TaskState.Waiting : Nat := 2

/-- TaskState.Running constant from task.py. -/
def TaskState.Running : Nat := 3

/-- TaskState.Completed constant from task.py. -/
def TaskState.Completed : Nat := 4

/-- TaskState.Stopped constant from task.py. -/
def TaskState.Stopped : Nat := 5

/-- TaskState.Aborted constant from task.py. -/
def TaskState.Aborted : Nat := 6

/-- Modelled from the spec: MultiTaskData, the payload carrier defined in
lightflow/models/task_data.py, which is not among the provided sources.
Section 3 of the spec specifies the working data plus an append-only history
of task names; section 4.2 step 1 constructs a fresh empty payload scoped to
a task name. The opaque working data is represented by a list of strings. -/
structure MultiTaskData where
  scope : Option String
  datasets : List String
  task_history : List String
deriving DecidableEq

/-- Modelled from the spec: the MultiTaskData constructor applied to a task
name, as in the call MultiTaskData(self._name) of task.py: a fresh empty
payload scoped to that task name. -/
def MultiTaskData.init (task_name : String) : MultiTaskData :=
  ⟨some task_name, [], []⟩

/-- Modelled from the spec: add_task_history appends a task name to the
append-only, never reordered or truncated history of the payload. -/
def MultiTaskData.add_task_history (d : MultiTaskData) (task_name : String) :
    MultiTaskData :=
  ⟨d.scope, d.datasets, d.task_history ++ [task_name]⟩

/-- Modelled from the spec: Action, the result value defined in
lightflow/models/action.py, which is not among the provided sources.
Section 3 of the spec: a data payload plus an optional restriction on the
successors allowed to run next; an absent limit means all structurally
eligible successors run. -/
structure Action where
  data : MultiTaskData
  limit : Option (List String)
deriving DecidableEq

/-- Modelled from the spec: the fatal error raised when user task logic
returns a value that is not an Action. The class is defined in
lightflow/models/exceptions.py, which is not among the provided sources. -/
inductive TaskError where
  | taskReturnActionInvalid
deriving DecidableEq

/-- A Python value returned by user task logic, as far as the wrapper
inspects it: None, an Action instance, or any other value; a numeric tag
stands in for the arbitrary other value. -/
inductive ReturnValue where
  | none
  | action (a : Action)
  | other (v : Nat)
deriving DecidableEq

/-- Outcome of one invocation of user task logic, matching the three cases
BaseTask._run distinguishes: a normal return of a value, a raised StopTask
carrying its skip_successors flag, or a raised AbortWorkflow. -/
inductive RunOutcome where
  | ret (value : ReturnValue)
  | stopTask (skip_successors : Bool)
  | abortWorkflow
deriving DecidableEq

/-- The slice of a celery AsyncResult that task.py reads: the raw state
string and the ready and failed reports, plus a flag recording whether the
result was released from the backend by forget. The handle itself is
external to the repository; the spec, section 4.3, fixes its contract. -/
structure AsyncResult where
  state : String
  ready : Bool
  failed : Bool
  forgotten : Bool
deriving DecidableEq

/-- Modelled from the spec: forget releases the backing resources of the
handle; per section 4.3 of the spec, discarding is idempotent. -/
def AsyncResult.forget (r : AsyncResult) : AsyncResult :=
  ⟨r.state, r.ready, r.failed, true⟩

/-- The task descriptor from task.py: identity and policy fields set in
the constructor, plus the mutable runtime fields. -/
structure BaseTask where
  name : String
  queue : JobType
  force_run : Bool
  propagate_skip : Bool
  skip : Bool
  state : Nat
  celery_result : Option AsyncResult
  workflow_name : Option String
  dag_name : Option String
deriving DecidableEq

/-- The BaseTask constructor: mirrors the field initialisation of the
constructor of task.py, with skip false, state Init and no celery result;
workflow_name and dag_name are filled at runtime and start absent. -/
def BaseTask.init (name : String) (queue : JobType)
    (force_run propagate_skip : Bool) : BaseTask :=
  ⟨name, queue, force_run, propagate_skip, false, TaskState.Init,
    Option.none, Option.none, Option.none⟩

/-- The has_to_run property of task.py. -/
def BaseTask.has_to_run (t : BaseTask) : Bool := t.force_run

/-- The is_waiting property of task.py. -/
def BaseTask.is_waiting (t : BaseTask) : Bool := t.state == TaskState.Waiting

/-- The is_running property of task.py. -/
def BaseTask.is_running (t : BaseTask) : Bool := t.state == TaskState.Running

/-- The is_completed property of task.py. -/
def BaseTask.is_completed (t : BaseTask) : Bool :=
  t.state == TaskState.Completed

/-- The is_stopped property of task.py. -/
def BaseTask.is_stopped (t : BaseTask) : Bool := t.state == TaskState.Stopped

/-- The is_aborted property of task.py. -/
def BaseTask.is_aborted (t : BaseTask) : Bool := t.state == TaskState.Aborted

/-- The is_skipped property of task.py. -/
def BaseTask.is_skipped (t : BaseTask) : Bool := t.skip

/-- The has_celery_result property of task.py: whether a celery result
object is attached to the descriptor. -/
def BaseTask.has_celery_result (t : BaseTask) : Bool :=
  t.celery_result.isSome

/-- The celery_pending property of task.py: reads the handle state string
and compares it with PENDING, or returns false without a handle. -/
def BaseTask.celery_pending (t : BaseTask) : Bool :=
  match t.celery_result with
  | some r => r.state == "PENDING"
  | Option.none => false

/-- The celery_completed property of task.py: reads the ready report of the
handle, or returns false without a handle. -/
def BaseTask.celery_completed (t : BaseTask) : Bool :=
  match t.celery_result with
  | some r => r.ready
  | Option.none => false

/-- The celery_failed property of task.py: reads the failed report of the
handle, or returns false without a handle. -/
def BaseTask.celery_failed (t : BaseTask) : Bool :=
  match t.celery_result with
  | some r => r.failed
  | Option.none => false

/-- The celery_state property of task.py: the raw state string of the
handle, or the sentinel NOT_QUEUED without a handle. -/
def BaseTask.celery_state (t : BaseTask) : String :=
  match t.celery_result with
  | some r => r.state
  | Option.none => "NOT_QUEUED"

/-- The clear_celery_result method of task.py: when a handle is attached,
forget is called on it to release the result from the backend; without a
handle nothing happens. The updated descriptor is returned. -/
def BaseTask.clear_celery_result (t : BaseTask) : BaseTask :=
  match t.celery_result with
  | some r =>
      ⟨t.name, t.queue, t.force_run, t.propagate_skip, t.skip, t.state,
        some r.forget, t.workflow_name, t.dag_name⟩
  | Option.none => t

/-- Everything observable from one invocation of BaseTask._run: the payload
handed to user task logic, the returned Action or raised fatal error, how
often each optional callback fired, how often stop_workflow was requested
through the signal object, and how many history appends the wrapper itself
performed on the result payload. -/
structure RunTrace where
  logic_input : MultiTaskData
  result : Except TaskError Action
  success_calls : Nat
  stop_calls : Nat
  abort_calls : Nat
  stop_workflow_calls : Nat
  history_appends : Nat

/-- The data-defaulting step at the top of BaseTask._run: when data is None,
a fresh MultiTaskData scoped to the task name is constructed. -/
def BaseTask.effective_data (t : BaseTask) (data : Option MultiTaskData) :
    MultiTaskData :=
  match data with
  | Option.none => MultiTaskData.init t.name
  | some d => d

/-- The normalisation tail of BaseTask._run: a None candidate result becomes
a default Action over the current payload; a candidate that is not an Action
raises TaskReturnActionInvalid; an Action candidate has the task name
appended to the history of its contained payload and is returned. The
second component counts the history appends the wrapper performed. -/
def BaseTask.normalize_result (t : BaseTask) (data : MultiTaskData) :
    ReturnValue → Except TaskError Action × Nat
  | ReturnValue.none => (Except.ok ⟨data, Option.none⟩, 0)
  | ReturnValue.action a =>
      (Except.ok ⟨a.data.add_task_history t.name, a.limit⟩, 1)
  | ReturnValue.other _ => (Except.error TaskError.taskReturnActionInvalid, 0)

/-- BaseTask._run, the execution wrapper. User task logic is a function from
the payload to its outcome; the store, signal and context arguments of the
Python method are opaque pass-throughs and are absorbed into that function.
The three optional callbacks are abstracted to presence flags, since the
wrapper only decides whether to call each one: a normal return fires the
success callback, a StopTask fires the stop callback and yields an
empty-limit Action over the payload when skip_successors is set, a raised
AbortWorkflow fires the abort callback and requests stop_workflow once. -/
def BaseTask.run_wrapper (t : BaseTask) (data : Option MultiTaskData)
    (logic : MultiTaskData → RunOutcome)
    (has_success_callback has_stop_callback has_abort_callback : Bool) :
    RunTrace :=
  let d := t.effective_data data
  match logic d with
  | RunOutcome.ret v =>
      let norm := t.normalize_result d v
      ⟨d, norm.1, if has_success_callback then 1 else 0, 0, 0, 0, norm.2⟩
  | RunOutcome.stopTask skip_successors =>
      let candidate :=
        if skip_successors then ReturnValue.action ⟨d, some []⟩
        else ReturnValue.none
      let norm := t.normalize_result d candidate
      ⟨d, norm.1, 0, if has_stop_callback then 1 else 0, 0, 0, norm.2⟩
  | RunOutcome.abortWorkflow =>
      let norm := t.normalize_result d ReturnValue.none
      ⟨d, norm.1, 0, 0, if has_abort_callback then 1 else 0, 1, norm.2⟩

/-- A sample descriptor used to instantiate universally quantified theorems
on concrete inputs. -/
def sampleTask : BaseTask := BaseTask.init "alpha" JobType.Task false true

/-- A sample incoming payload with a nonempty history. -/
def sampleData : MultiTaskData := ⟨some "start", ["x"], ["prev"]⟩

/-- A sample attached celery handle in a terminal successful state. -/
def sampleResult : AsyncResult := ⟨"SUCCESS", true, false, false⟩

/-- A sample descriptor with the sample celery handle attached. -/
def sampleQueuedTask : BaseTask :=
  ⟨"beta", JobType.Task, false, true, false, TaskState.Running,
    some sampleResult, Option.none, Option.none⟩

/-- Claim C3: when user task logic returns, without raising, a present value
that is not an Action, the wrapper raises TaskReturnActionInvalid, produces
no Action, and performs no append on any payload history. -/
theorem run_invalid_return_raises (t : BaseTask) (data : Option MultiTaskData)
    (logic : MultiTaskData → RunOutcome) (hs hst ha : Bool) (n : Nat)
    (h : logic (t.effective_data data) = RunOutcome.ret (ReturnValue.other n)) :
    (t.run_wrapper data logic hs hst ha).result
      = Except.error TaskError.taskReturnActionInvalid
    ∧ (t.run_wrapper data logic hs hst ha).history_appends = 0 := by
  simp [BaseTask.run_wrapper, h, BaseTask.normalize_result]

/-- Witness for claim C3: user logic returning the integer 42. -/
theorem run_invalid_return_raises_witness :
    (sampleTask.run_wrapper (some sampleData)
        (fun _ => RunOutcome.ret (ReturnValue.other 42)) true false
        false).result
      = Except.error TaskError.taskReturnActionInvalid
    ∧ (sampleTask.run_wrapper (some sampleData)
        (fun _ => RunOutcome.ret (ReturnValue.other 42)) true false
        false).history_appends = 0 :=
  run_invalid_return_raises sampleTask (some sampleData)
    (fun _ => RunOutcome.ret (ReturnValue.other 42)) true false false 42 rfl

/-- Claim C4: task logic raising StopTask with skip_successors true makes
the wrapper return an Action over the original incoming payload — scope and
datasets unchanged, the history receiving the final append of the task
name — together with an empty successor-limit list, whatever else the logic
computed before raising. -/
theorem run_stop_skip_successors (t : BaseTask) (d : MultiTaskData)
    (logic : MultiTaskData → RunOutcome) (hs hst ha : Bool)
    (h : logic d = RunOutcome.stopTask true) :
    (t.run_wrapper (some d) logic hs hst ha).result
      = Except.ok ⟨⟨d.scope, d.datasets, d.task_history ++ [t.name]⟩,
          some []⟩ := by
  simp [BaseTask.run_wrapper, BaseTask.effective_data, h,
    BaseTask.normalize_result, MultiTaskData.add_task_history]

/-- Witness for claim C4 on the sample task and payload. -/
theorem run_stop_skip_successors_witness :
    (sampleTask.run_wrapper (some sampleData)
        (fun _ => RunOutcome.stopTask true) false true false).result
      = Except.ok ⟨⟨some "start", ["x"], ["prev", "alpha"]⟩, some []⟩ :=
  run_stop_skip_successors sampleTask sampleData
    (fun _ => RunOutcome.stopTask true) false true false rfl

/-- Claim C5: task logic raising AbortWorkflow makes the wrapper request
stop_workflow through the signal object exactly once and return a default
Action over the incoming payload with no successor restriction; the result
is an ok value, so the signal is never surfaced as a raised error. -/
theorem run_abort_stops_workflow (t : BaseTask) (data : Option MultiTaskData)
    (logic : MultiTaskData → RunOutcome) (hs hst ha : Bool)
    (h : logic (t.effective_data data) = RunOutcome.abortWorkflow) :
    (t.run_wrapper data logic hs hst ha).stop_workflow_calls = 1
    ∧ (t.run_wrapper data logic hs hst ha).result
      = Except.ok ⟨t.effective_data data, Option.none⟩ := by
  simp [BaseTask.run_wrapper, h, BaseTask.normalize_result]

/-- Witness for claim C5 on the sample task and payload. -/
theorem run_abort_stops_workflow_witness :
    (sampleTask.run_wrapper (some sampleData)
        (fun _ => RunOutcome.abortWorkflow) false false
        true).stop_workflow_calls = 1
    ∧ (sampleTask.run_wrapper (some sampleData)
        (fun _ => RunOutcome.abortWorkflow) false false true).result
      = Except.ok ⟨sampleData, Option.none⟩ :=
  run_abort_stops_workflow sampleTask (some sampleData)
    (fun _ => RunOutcome.abortWorkflow) false false true rfl

/-- Claim C6: task logic raising StopTask with skip_successors false makes
the wrapper return an Action with no successor restriction, equal to the
output for task logic that returns None on the same inputs. -/
theorem run_stop_no_skip_equals_empty_return (t : BaseTask)
    (data : Option MultiTaskData) (logicStop logicIdle : MultiTaskData → RunOutcome)
    (hs1 hst1 ha1 hs2 hst2 ha2 : Bool)
    (h1 : logicStop (t.effective_data data) = RunOutcome.stopTask false)
    (h2 : logicIdle (t.effective_data data) = RunOutcome.ret ReturnValue.none) :
    (t.run_wrapper data logicStop hs1 hst1 ha1).result
      = Except.ok ⟨t.effective_data data, Option.none⟩
    ∧ (t.run_wrapper data logicStop hs1 hst1 ha1).result
      = (t.run_wrapper data logicIdle hs2 hst2 ha2).result := by
  simp [BaseTask.run_wrapper, h1, h2, BaseTask.normalize_result]

/-- Witness for claim C6 on the sample task and payload. -/
theorem run_stop_no_skip_equals_empty_return_witness :
    (sampleTask.run_wrapper (some sampleData)
        (fun _ => RunOutcome.stopTask false) false true false).result
      = Except.ok ⟨sampleData, Option.none⟩
    ∧ (sampleTask.run_wrapper (some sampleData)
        (fun _ => RunOutcome.stopTask false) false true false).result
      = (sampleTask.run_wrapper (some sampleData)
        (fun _ => RunOutcome.ret ReturnValue.none) true false false).result :=
  run_stop_no_skip_equals_empty_return sampleTask (some sampleData)
    (fun _ => RunOutcome.stopTask false)
    (fun _ => RunOutcome.ret ReturnValue.none)
    false true false true false false rfl rfl

/-- Claim C7: invoked with an absent incoming payload, the wrapper hands the
user task logic a freshly constructed payload scoped to the task name, with
empty datasets and empty history. -/
theorem run_absent_data_uses_fresh_payload (t : BaseTask)
    (logic : MultiTaskData → RunOutcome) (hs hst ha : Bool) :
    (t.run_wrapper Option.none logic hs hst ha).logic_input
      = MultiTaskData.init t.name
    ∧ MultiTaskData.init t.name = ⟨some t.name, [], []⟩ := by
  refine ⟨?_, rfl⟩
  cases hl : logic (MultiTaskData.init t.name) <;>
    simp [BaseTask.run_wrapper, BaseTask.effective_data, hl]

/-- Claim C8: with no celery handle attached, the pending, completed and
failed queries return false and the state label is the NOT_QUEUED sentinel;
with a handle attached, each query reads through to the handle reports. All
four queries are total functions, so none can raise. -/
theorem celery_status_queries (t : BaseTask) :
    (t.celery_result = Option.none →
      t.celery_pending = false ∧ t.celery_completed = false
      ∧ t.celery_failed = false ∧ t.celery_state = "NOT_QUEUED")
    ∧ ∀ r : AsyncResult, t.celery_result = some r →
      t.celery_pending = (r.state == "PENDING")
      ∧ t.celery_completed = r.ready
      ∧ t.celery_failed = r.failed
      ∧ t.celery_state = r.state := by
  constructor
  · intro h
    simp [BaseTask.celery_pending, BaseTask.celery_completed,
      BaseTask.celery_failed, BaseTask.celery_state, h]
  · intro r h
    simp [BaseTask.celery_pending, BaseTask.celery_completed,
      BaseTask.celery_failed, BaseTask.celery_state, h]

/-- Witness for claim C8: a descriptor without a handle and one with an
attached handle in the SUCCESS state. -/
theorem celery_status_queries_witness :
    (sampleTask.celery_pending = false ∧ sampleTask.celery_completed = false
      ∧ sampleTask.celery_failed = false
      ∧ sampleTask.celery_state = "NOT_QUEUED")
    ∧ (sampleQueuedTask.celery_pending = (sampleResult.state == "PENDING")
      ∧ sampleQueuedTask.celery_completed = sampleResult.ready
      ∧ sampleQueuedTask.celery_failed = sampleResult.failed
      ∧ sampleQueuedTask.celery_state = sampleResult.state) :=
  ⟨(celery_status_queries sampleTask).1 rfl,
   (celery_status_queries sampleQueuedTask).2 sampleResult rfl⟩

/-- Claim C9: discarding the celery result is idempotent: with no handle
attached it is the identity, and a second call always equals the first. The
operation is a total function, so neither call can raise. -/
theorem clear_celery_result_idempotent (t : BaseTask) :
    (t.celery_result = Option.none → t.clear_celery_result = t)
    ∧ t.clear_celery_result.clear_celery_result = t.clear_celery_result := by
  constructor
  · intro h
    simp [BaseTask.clear_celery_result, h]
  · cases h : t.celery_result with
    | none => simp [BaseTask.clear_celery_result, h]
    | some r => simp [BaseTask.clear_celery_result, h, AsyncResult.forget]

/-- Witness for claim C9: a descriptor without a handle and one with an
attached handle. -/
theorem clear_celery_result_idempotent_witness :
    sampleTask.clear_celery_result = sampleTask
    ∧ sampleQueuedTask.clear_celery_result.clear_celery_result
      = sampleQueuedTask.clear_celery_result :=
  ⟨(clear_celery_result_idempotent sampleTask).1 rfl,
   (clear_celery_result_idempotent sampleQueuedTask).2⟩

/-- Claim C1 as stated fails: with user logic that returns None the wrapper
produces an Action, yet the payload history it carries is the incoming
history unchanged — the task name is absent from it and the wrapper
performed no append. -/
theorem run_none_return_counterexample :
    (sampleTask.run_wrapper (some sampleData)
        (fun _ => RunOutcome.ret ReturnValue.none) false false false).result
      = Except.ok ⟨⟨some "start", ["x"], ["prev"]⟩, Option.none⟩
    ∧ (sampleTask.run_wrapper (some sampleData)
        (fun _ => RunOutcome.ret ReturnValue.none) false false
        false).history_appends = 0
    ∧ sampleTask.name ∉ sampleData.task_history :=
  ⟨rfl, rfl, by decide⟩

/-- Claim C1 amended: the task name is appended — exactly once, and after
the history already present — whenever the candidate result is present:
user logic returned a valid Action, or raised StopTask with skip_successors
true; the absent-candidate paths return the payload history untouched. -/
theorem run_present_result_appends_name_once (t : BaseTask)
    (data : Option MultiTaskData) (logic : MultiTaskData → RunOutcome)
    (hs hst ha : Bool) :
    (∀ a : Action,
      logic (t.effective_data data) = RunOutcome.ret (ReturnValue.action a) →
      (t.run_wrapper data logic hs hst ha).result
        = Except.ok ⟨⟨a.data.scope, a.data.datasets,
            a.data.task_history ++ [t.name]⟩, a.limit⟩
      ∧ (t.run_wrapper data logic hs hst ha).history_appends = 1)
    ∧ (logic (t.effective_data data) = RunOutcome.stopTask true →
      (t.run_wrapper data logic hs hst ha).result
        = Except.ok ⟨⟨(t.effective_data data).scope,
            (t.effective_data data).datasets,
            (t.effective_data data).task_history ++ [t.name]⟩, some []⟩
      ∧ (t.run_wrapper data logic hs hst ha).history_appends = 1) := by
  constructor
  · intro a h
    simp [BaseTask.run_wrapper, h, BaseTask.normalize_result,
      MultiTaskData.add_task_history]
  · intro h
    simp [BaseTask.run_wrapper, h, BaseTask.normalize_result,
      MultiTaskData.add_task_history]

/-- Witness for the amended claim C1: an Action-returning logic and a
StopTask-with-skip logic on the sample task and payload. -/
theorem run_present_result_appends_name_once_witness :
    ((sampleTask.run_wrapper (some sampleData)
        (fun _ => RunOutcome.ret (ReturnValue.action ⟨sampleData, Option.none⟩))
        false false false).result
      = Except.ok ⟨⟨some "start", ["x"], ["prev", "alpha"]⟩, Option.none⟩
     ∧ (sampleTask.run_wrapper (some sampleData)
        (fun _ => RunOutcome.ret (ReturnValue.action ⟨sampleData, Option.none⟩))
        false false false).history_appends = 1)
    ∧ ((sampleTask.run_wrapper (some sampleData)
        (fun _ => RunOutcome.stopTask true) true true true).result
      = Except.ok ⟨⟨some "start", ["x"], ["prev", "alpha"]⟩, some []⟩
     ∧ (sampleTask.run_wrapper (some sampleData)
        (fun _ => RunOutcome.stopTask true) true true true).history_appends
      = 1) :=
  ⟨(run_present_result_appends_name_once sampleTask (some sampleData)
      (fun _ => RunOutcome.ret (ReturnValue.action ⟨sampleData, Option.none⟩))
      false false false).1 ⟨sampleData, Option.none⟩ rfl,
   (run_present_result_appends_name_once sampleTask (some sampleData)
      (fun _ => RunOutcome.stopTask true) true true true).2 rfl⟩

/-- Claim C2 as stated fails: when user logic returns the non-Action value
42 and all three callbacks are supplied, the wrapper fires the success
callback once before raising the fatal error. -/
theorem run_invalid_return_fires_success_counterexample :
    (sampleTask.run_wrapper (some sampleData)
        (fun _ => RunOutcome.ret (ReturnValue.other 42)) true true
        true).success_calls = 1
    ∧ (sampleTask.run_wrapper (some sampleData)
        (fun _ => RunOutcome.ret (ReturnValue.other 42)) true true
        true).result = Except.error TaskError.taskReturnActionInvalid :=
  ⟨rfl, rfl⟩

/-- Claim C2 amended: on a non-Action return the stop and abort callbacks
are not fired, but the success callback, when supplied, fires once — the
wrapper calls it right after user logic returns, before the invalid-result
check raises. -/
theorem run_invalid_return_callback_profile (t : BaseTask)
    (data : Option MultiTaskData) (logic : MultiTaskData → RunOutcome)
    (hs hst ha : Bool) (n : Nat)
    (h : logic (t.effective_data data) = RunOutcome.ret (ReturnValue.other n)) :
    (t.run_wrapper data logic hs hst ha).success_calls
      = (if hs then 1 else 0)
    ∧ (t.run_wrapper data logic hs hst ha).stop_calls = 0
    ∧ (t.run_wrapper data logic hs hst ha).abort_calls = 0 := by
  simp [BaseTask.run_wrapper, h, BaseTask.normalize_result]

/-- Witness for the amended claim C2: user logic returning the integer 7
with only the success callback supplied. -/
theorem run_invalid_return_callback_profile_witness :
    (sampleTask.run_wrapper (some sampleData)
        (fun _ => RunOutcome.ret (ReturnValue.other 7)) true false
        false).success_calls = 1
    ∧ (sampleTask.run_wrapper (some sampleData)
        (fun _ => RunOutcome.ret (ReturnValue.other 7)) true false
        false).stop_calls = 0
    ∧ (sampleTask.run_wrapper (some sampleData)
        (fun _ => RunOutcome.ret (ReturnValue.other 7)) true false
        false).abort_calls = 0 :=
  run_invalid_return_callback_profile sampleTask (some sampleData)
    (fun _ => RunOutcome.ret (ReturnValue.other 7)) true false false 7 rfl

/-- Claim C10: on every invocation whose candidate result is absent — user
logic returned None, raised StopTask with skip_successors false, or raised
AbortWorkflow — the wrapper returns a default Action carrying the incoming
payload with its history untouched and performs no append; conversely, any
append implies the candidate was present: a returned Action or a StopTask
with skip_successors true. -/
theorem run_absent_candidate_frame (t : BaseTask)
    (data : Option MultiTaskData) (logic : MultiTaskData → RunOutcome)
    (hs hst ha : Bool) :
    ((logic (t.effective_data data) = RunOutcome.ret ReturnValue.none
        ∨ logic (t.effective_data data) = RunOutcome.stopTask false
        ∨ logic (t.effective_data data) = RunOutcome.abortWorkflow) →
      (t.run_wrapper data logic hs hst ha).result
        = Except.ok ⟨t.effective_data data, Option.none⟩
      ∧ (t.run_wrapper data logic hs hst ha).history_appends = 0)
    ∧ ((t.run_wrapper data logic hs hst ha).history_appends ≠ 0 →
      (∃ a : Action,
        logic (t.effective_data data) = RunOutcome.ret (ReturnValue.action a))
      ∨ logic (t.effective_data data) = RunOutcome.stopTask true) := by
  constructor
  · rintro (h | h | h) <;>
      simp [BaseTask.run_wrapper, h, BaseTask.normalize_result]
  · intro h2
    cases hl : logic (t.effective_data data) with
    | ret v =>
        cases v with
        | none =>
            exact absurd
              (show (t.run_wrapper data logic hs hst ha).history_appends = 0
                by simp [BaseTask.run_wrapper, hl, BaseTask.normalize_result])
              h2
        | action a => exact Or.inl ⟨a, rfl⟩
        | other n =>
            exact absurd
              (show (t.run_wrapper data logic hs hst ha).history_appends = 0
                by simp [BaseTask.run_wrapper, hl, BaseTask.normalize_result])
              h2
    | stopTask sk =>
        cases sk with
        | false =>
            exact absurd
              (show (t.run_wrapper data logic hs hst ha).history_appends = 0
                by simp [BaseTask.run_wrapper, hl, BaseTask.normalize_result])
              h2
        | true => exact Or.inr rfl
    | abortWorkflow =>
        exact absurd
          (show (t.run_wrapper data logic hs hst ha).history_appends = 0
            by simp [BaseTask.run_wrapper, hl, BaseTask.normalize_result])
          h2

/-- Witness for claim C10: a None-returning logic for the frame direction,
and a StopTask-with-skip logic for the converse direction. -/
theorem run_absent_candidate_frame_witness :
    ((sampleTask.run_wrapper (some sampleData)
        (fun _ => RunOutcome.ret ReturnValue.none) true false false).result
      = Except.ok ⟨sampleData, Option.none⟩
     ∧ (sampleTask.run_wrapper (some sampleData)
        (fun _ => RunOutcome.ret ReturnValue.none) true false
        false).history_appends = 0)
    ∧ ((∃ a : Action,
          RunOutcome.stopTask true = RunOutcome.ret (ReturnValue.action a))
      ∨ RunOutcome.stopTask true = RunOutcome.stopTask true) :=
  ⟨(run_absent_candidate_frame sampleTask (some sampleData)
      (fun _ => RunOutcome.ret ReturnValue.none) true false false).1
      (Or.inl rfl),
   (run_absent_candidate_frame sampleTask (some sampleData)
      (fun _ => RunOutcome.stopTask true) false false false).2
      Nat.one_ne_zero⟩

end Lightflow
